import Mathlib

/-!
Verification development for the BeatConnect plugin SDK editor template
(`templates/src/PluginEditor.cpp`).

The development shallowly embeds the editor's resource provider (URL
normalization, JUCE `File::getChildFile` path resolution, MIME
classification, file serving), the construction trace of `setupWebView`
and `setupRelaysAndAttachments`, the dev/production mode split, the
attachment gesture state machine described by the design document, and
the visualizer event emission path.
-/

set_option autoImplicit false

namespace BeatConnect

/-! ### juce::String primitives used by the editor -/

/-- `juce::String::startsWith`: `p` is a prefix of `s`. -/
def strStartsWith (s p : String) : Bool :=
  p.data.isPrefixOf s.data

/-- `juce::String::endsWith`: `p` is a suffix of `s`. -/
def strEndsWith (s p : String) : Bool :=
  p.data.isSuffixOf s.data

/-- `juce::String::substring(1)`: drop the first character. -/
def strDrop1 (s : String) : String :=
  ⟨s.data.drop 1⟩

/-! ### juce::File path model

A `juce::File` is modelled by its full path string, with `/` as the
separator, following the JUCE implementation of `File::getChildFile`:
only a *leading* run of `"./"` and `"../"` tokens in the relative path is
resolved (each `".."` chops the last path segment off the parent path);
the remainder is appended verbatim after a trailing separator. -/

/-- Skip a run of leading separators (the `while (*r == separator) ++r`
loop inside `File::getChildFile`). -/
def dropSeps : List Char → List Char
  | [] => []
  | c :: r => if c = '/' then dropSeps r else c :: r

/-- Reversed-list helper for `lastIndexOfChar (separator)`: returns the
characters after the first `'/'` of the reversed path, i.e. the path
truncated at its last separator; `none` when the path has no separator. -/
def chopLastSegRev : List Char → Option (List Char)
  | [] => none
  | c :: r => if c = '/' then some r else chopLastSegRev r

/-- `path = path.substring (0, path.lastIndexOfChar (separator))` when a
separator exists, otherwise the path is left unchanged. -/
def parentPath (p : List Char) : List Char :=
  match chopLastSegRev p.reverse with
  | some r => r.reverse
  | none => p

theorem dropSeps_length_le (l : List Char) : (dropSeps l).length ≤ l.length := by
  induction l with
  | nil => simp [dropSeps]
  | cons c r ih =>
      by_cases h : c = '/'
      · simp [dropSeps, h]
        omega
      · simp [dropSeps, h]

/-- The leading-dots loop of `File::getChildFile`: starting from the
parent path `path` and relative path `r`, consume leading `"./"` and
`"../"` tokens (a `".."` token replaces `path` by its parent); stop at
the first character that does not begin such a token, returning the
adjusted parent path and the unconsumed remainder. -/
def resolveDots : List Char → List Char → List Char × List Char
  | path, [] => (path, [])
  | path, c1 :: rest1 =>
    if c1 = '.' then
      match rest1 with
      | [] => (path, [])
      | c2 :: rest2 =>
        if c2 = '.' then
          match rest2 with
          | [] => (parentPath path, [])
          | c3 :: rest3 =>
            if c3 = '/' then resolveDots (parentPath path) (dropSeps rest3)
            else (path, c1 :: rest1)
        else if c2 = '/' then resolveDots path (dropSeps rest2)
        else (path, c1 :: rest1)
    else (path, c1 :: rest1)
termination_by _ r => r.length
decreasing_by
  all_goals simp_wf
  all_goals have := dropSeps_length_le r
  all_goals omega

/-- `addTrailingSeparator`: append `'/'` unless the path already ends
with one. -/
def addTrailingSep (p : List Char) : List Char :=
  if p.getLast? = some ('/' : Char) then p else p ++ ['/']

/-- POSIX `File::isAbsolutePath`: starts with the separator or `'~'`. -/
def isAbsolutePath (r : List Char) : Bool :=
  match r with
  | [] => false
  | c :: _ => c = '/' || c = '~'

/-- `juce::File::getChildFile (rel)` on the directory `dir`. -/
def getChildFile (dir : String) (rel : String) : String :=
  if isAbsolutePath rel.data then rel
  else
    let pr := resolveDots dir.data rel.data
    ⟨addTrailingSep pr.1 ++ pr.2⟩

/-! ### Filesystem abstraction

The editor runs against an OS filesystem; the provider only queries it
through `File::existsAsFile` and `File::loadFileAsData`.  A filesystem
is modelled by those two observations plus the true file contents.
`loadFileAsData` returns a success flag and the bytes it appended to the
memory block; when it succeeds the block holds the complete file
contents (`ReadFaithful`), when it fails the block may hold anything
(empty or partial data). -/

structure FileSystem where
  existsAsFile : String → Bool
  contents : String → List Nat
  readData : String → Bool × List Nat

/-- JUCE's contract for `loadFileAsData`: a successful read yields the
complete file contents. -/
def ReadFaithful (fs : FileSystem) : Prop :=
  ∀ p : String, (fs.readData p).1 = true → (fs.readData p).2 = fs.contents p

/-- `juce::WebBrowserComponent::Resource`: bytes plus a MIME type. -/
structure Resource where
  data : List Nat
  mimeType : String
  deriving DecidableEq

/-! ### The resource provider lambda (PluginEditor.cpp lines 74–108) -/

/-- Path normalization (lines 77–81): strip one leading `"/"`, then an
empty path becomes `"index.html"`. -/
def normalizePath (url : String) : String :=
  let path := if strStartsWith url "/" then strDrop1 url else url
  if path = "" then "index.html" else path

/-- MIME classification (lines 87–97): default
`application/octet-stream` overridden by the suffix table, tested in
source order. -/
def getMimeType (path : String) : String :=
  if strEndsWith path ".html" then "text/html"
  else if strEndsWith path ".css" then "text/css"
  else if strEndsWith path ".js" then "application/javascript"
  else if strEndsWith path ".json" then "application/json"
  else if strEndsWith path ".png" then "image/png"
  else if strEndsWith path ".jpg" || strEndsWith path ".jpeg" then "image/jpeg"
  else if strEndsWith path ".svg" then "image/svg+xml"
  else if strEndsWith path ".woff" then "font/woff"
  else if strEndsWith path ".woff2" then "font/woff2"
  else "application/octet-stream"

/-- The resource provider lambda (lines 74–108): normalize the URL,
resolve it under `resourcesDir`, return `none` unless a regular file
exists there, else serve the bytes `loadFileAsData` produced (its
success flag is discarded, as in the source) with the classified MIME
type. -/
def resourceProvider (fs : FileSystem) (resourcesDir : String) (url : String) :
    Option Resource :=
  let path := normalizePath url
  let file := getChildFile resourcesDir path
  if !(fs.existsAsFile file) then none
  else
    let mimeType := getMimeType path
    let data := (fs.readData file).2
    some { data := data, mimeType := mimeType }

/-! ### Build modes and initial navigation (lines 14–16, 130–136) -/

/-- Vite development server URL (line 16). -/
def DEV_SERVER_URL : String := "http://localhost:5173"

/-- The two operating modes: production serves bundled assets through
the resource provider, development navigates to the Vite server.  The
mode is fixed by the `{{PLUGIN_NAME_UPPER}}_DEV_MODE` preprocessor flag,
a construction-time constant. -/
inductive Mode
  | bundled
  | live
  deriving DecidableEq

/-- The preprocessor split at lines 130–136 as a function of the mode:
the URL passed to `goToURL`.  `root` stands for
`webView->getResourceProviderRoot()`, the synthetic root URL owned by
the asset server. -/
def initialURL (mode : Mode) (root : String) : String :=
  match mode with
  | .bundled => root
  | .live => DEV_SERVER_URL

/-- Outcome of one intercepted fetch. -/
inductive FetchResult
  | fromResolver (r : Option Resource)
  | fromNetwork (origin url : String)
  deriving DecidableEq

/-- Modelled from the spec: the UI runtime's fetch interception point
(`juce::WebBrowserComponent`, not part of this repository).  In bundled
mode every request is answered by the registered resource provider; in
live mode requests go to the external development origin and the
resolver is not consulted. -/
def interceptFetch (mode : Mode) (fs : FileSystem) (dir url : String) : FetchResult :=
  match mode with
  | .bundled => .fromResolver (resourceProvider fs dir url)
  | .live => .fromNetwork DEV_SERVER_URL url

/-! ### Construction trace of the editor (constructor, setupWebView,
setupRelaysAndAttachments) -/

/-- Observable steps of the editor's construction, in source order. -/
inductive EditorEvent
  | createRelay (id : String)
  | setResourcesDir
  | setResourceProvider
  | registerRelayOptions (id : String)
  | createWebBrowserComponent
  | navigate (url : String)
  | createAttachment (id : String)
  | setEditorSize
  | startTimer
  deriving DecidableEq

/-- `setupWebView` (lines 40–137) as an event trace: relays are created
(lines 50–54), the resources directory computed (62–65), the options
built — resource provider (74–108) then relay registration (110–112) —
the `WebBrowserComponent` constructed (124), and the initial URL loaded
(130–136). -/
def setupWebViewTrace (devMode : Bool) (root : String) : List EditorEvent :=
  [ .createRelay "gain", .createRelay "mix", .createRelay "bypass",
    .setResourcesDir,
    .setResourceProvider,
    .registerRelayOptions "gain", .registerRelayOptions "mix",
    .registerRelayOptions "bypass",
    .createWebBrowserComponent,
    .navigate (initialURL (if devMode then .live else .bundled) root) ]

/-- `setupRelaysAndAttachments` (lines 140–166) as an event trace. -/
def setupRelaysTrace : List EditorEvent :=
  [ .createAttachment "gain", .createAttachment "mix",
    .createAttachment "bypass" ]

/-- The constructor body (lines 19–32): `setupWebView()`, then
`setupRelaysAndAttachments()`, then `setSize`/`setResizable`, then
`startTimerHz(30)`. -/
def editorConstructionTrace (devMode : Bool) (root : String) : List EditorEvent :=
  setupWebViewTrace devMode root ++ setupRelaysTrace ++
    [ .setEditorSize, .startTimer ]

/-- Events that create a relay or register its identifier with the
WebView options. -/
def relayEvent : EditorEvent → Bool
  | .createRelay _ => true
  | .registerRelayOptions _ => true
  | _ => false

/-- Recognizer for the `WebBrowserComponent` construction step. -/
def isCreateWebView : EditorEvent → Bool
  | .createWebBrowserComponent => true
  | _ => false

/-! ### Attachment gesture state machine

Modelled from the spec: the `WebSliderParameterAttachment` /
`WebToggleButtonParameterAttachment` classes constructed at lines
154–161 live in JUCE, not in this repository; the design document
(section 4.4) specifies their synchronization state machine, which is
embedded here.  Values are kept abstract as integers — gesture framing
is independent of the value domain. -/

/-- Attachment gesture state: `idle` or `dragging` (section 4.4). -/
inductive GestureState
  | idle
  | dragging
  deriving DecidableEq

/-- Attachment state: gesture state, the native parameter's value, and
counters for the begin and end gesture signals sent to the native
parameter (observation variables for the framing property). -/
structure AttachmentState where
  gesture : GestureState
  paramValue : Int
  beginCount : Nat
  endCount : Nat
  deriving DecidableEq

/-- UI-transport events reaching one attachment. -/
inductive UIEvent
  | interactionStarted
  | valueChanged (v : Int)
  | interactionFinished
  deriving DecidableEq

/-- Modelled from the spec: one transition of the attachment state
machine of design-document section 4.4 (the missing code is JUCE's
`WebSliderParameterAttachment` and `WebToggleButtonParameterAttachment`):
"interaction started" opens a gesture only from `idle` (a duplicate
start while dragging is a no-op); a value change writes the value to the
native parameter and leaves the gesture state alone; "interaction
finished" closes the gesture only from `dragging`. -/
def stepAttachment (s : AttachmentState) : UIEvent → AttachmentState
  | .interactionStarted =>
      match s.gesture with
      | .idle => { s with gesture := .dragging, beginCount := s.beginCount + 1 }
      | .dragging => s
  | .valueChanged v => { s with paramValue := v }
  | .interactionFinished =>
      match s.gesture with
      | .dragging => { s with gesture := .idle, endCount := s.endCount + 1 }
      | .idle => s

/-- Run a sequence of UI events through an attachment. -/
def runAttachment (s : AttachmentState) (evs : List UIEvent) : AttachmentState :=
  evs.foldl stepAttachment s

/-- Number of gestures currently open towards the native parameter. -/
def gesturesOpen (s : AttachmentState) : Nat :=
  s.beginCount - s.endCount

/-- The attachment state at editor construction: idle, no gesture
signal sent yet. -/
def initialAttachment (v : Int) : AttachmentState :=
  { gesture := .idle, paramValue := v, beginCount := 0, endCount := 0 }

/-! ### Event channel (timerCallback / sendVisualizerData, lines
169–197) -/

/-- The editor state observed by `sendVisualizerData`: whether the
`webView` component exists (it does from the end of `setupWebView` until
destruction) and whether the browser is visible. -/
structure EditorState where
  webViewExists : Bool
  browserVisible : Bool
  deriving DecidableEq

/-- Modelled from the spec:
`juce::WebBrowserComponent::emitEventIfBrowserIsVisible` (not part of
this repository) delivers the event exactly once when the browser is
visible and delivers nothing — without queueing — otherwise.  The
result is the list of delivered event names. -/
def emitEventIfBrowserIsVisible (visible : Bool) (name : String) : List String :=
  if visible then [name] else []

/-- `sendVisualizerData` (lines 174–197): bail out if the web view does
not exist, else emit one `"visualizerData"` event through the
visibility-guarded channel.  The result is the list of delivered event
names. -/
def sendVisualizerData (st : EditorState) : List String :=
  if !st.webViewExists then []
  else emitEventIfBrowserIsVisible st.browserVisible "visualizerData"

/-- `timerCallback` (lines 169–172) forwards to `sendVisualizerData`. -/
def timerCallback (st : EditorState) : List String :=
  sendVisualizerData st

/-! ### Concrete filesystem fixtures -/

/-- A filesystem on which every path names a regular file of contents
`[42]`; exhibits that the provider serves any existing file, wherever
the resolved path lands. -/
def escapeFS : FileSystem :=
  { existsAsFile := fun _ => true
  , contents := fun _ => [42]
  , readData := fun _ => (true, [42]) }

/-- A filesystem with no files at all. -/
def emptyFS : FileSystem :=
  { existsAsFile := fun _ => false
  , contents := fun _ => []
  , readData := fun _ => (true, []) }

/-- A filesystem on which every file exists but every read fails,
leaving the memory block empty. -/
def failReadFS : FileSystem :=
  { existsAsFile := fun _ => true
  , contents := fun _ => [7, 8, 9]
  , readData := fun _ => (false, []) }

/-- A filesystem on which every file exists with contents `[5]` and
reads succeed. -/
def okFS : FileSystem :=
  { existsAsFile := fun _ => true
  , contents := fun _ => [5]
  , readData := fun _ => (true, [5]) }

/-- Correspondence between the gesture state and the balance of begin
and end gesture signals: idle means balanced, dragging means exactly one
gesture open. -/
def GestureInv (s : AttachmentState) : Prop :=
  (s.gesture = .idle → s.beginCount = s.endCount)
  ∧ (s.gesture = .dragging → s.beginCount = s.endCount + 1)

/-! ### Helper lemmas -/

theorem endsWith_comparable {s a b : String}
    (ha : strEndsWith s a = true) (hb : strEndsWith s b = true) :
    a.data.isSuffixOf b.data = true ∨ b.data.isSuffixOf a.data = true := by
  rw [strEndsWith, List.isSuffixOf_iff_suffix] at ha hb
  rw [List.isSuffixOf_iff_suffix, List.isSuffixOf_iff_suffix]
  rcases List.prefix_or_prefix_of_prefix ha.reverse hb.reverse with h | h
  · left
    simpa using h.reverse
  · right
    simpa using h.reverse

theorem endsWith_excl {s : String} (a b : String)
    (hcomp : (a.data.isSuffixOf b.data || b.data.isSuffixOf a.data) = false)
    (ha : strEndsWith s a = true) : strEndsWith s b = false := by
  cases hsb : strEndsWith s b
  · rfl
  · rcases endsWith_comparable ha hsb with h | h <;> simp_all

theorem runAttachment_valueChanged (vs : List Int) (s : AttachmentState) :
    (runAttachment s (vs.map .valueChanged)).gesture = s.gesture
    ∧ (runAttachment s (vs.map .valueChanged)).beginCount = s.beginCount
    ∧ (runAttachment s (vs.map .valueChanged)).endCount = s.endCount := by
  induction vs generalizing s with
  | nil => exact ⟨rfl, rfl, rfl⟩
  | cons v vs ih =>
      simpa [runAttachment, stepAttachment] using ih { s with paramValue := v }

theorem step_finish_dragging (s : AttachmentState) (h : s.gesture = .dragging) :
    (stepAttachment s .interactionFinished).beginCount = s.beginCount
    ∧ (stepAttachment s .interactionFinished).endCount = s.endCount + 1
    ∧ (stepAttachment s .interactionFinished).gesture = .idle := by
  simp [stepAttachment, h]

theorem step_start_dragging (s : AttachmentState) (h : s.gesture = .dragging) :
    stepAttachment s .interactionStarted = s := by
  simp [stepAttachment, h]

theorem stepAttachment_inv (s : AttachmentState) (e : UIEvent) (h : GestureInv s) :
    GestureInv (stepAttachment s e) := by
  obtain ⟨h1, h2⟩ := h
  cases e <;> cases hg : s.gesture <;>
    simp [stepAttachment, hg, GestureInv] <;> simp [hg] at h1 h2 <;> omega

theorem runAttachment_inv (evs : List UIEvent) (s : AttachmentState) (h : GestureInv s) :
    GestureInv (runAttachment s evs) := by
  induction evs generalizing s with
  | nil => exact h
  | cons e evs ih => exact ih _ (stepAttachment_inv s e h)

theorem runAttachment_cons (s : AttachmentState) (e : UIEvent) (evs : List UIEvent) :
    runAttachment s (e :: evs) = runAttachment (stepAttachment s e) evs := rfl

theorem runAttachment_append (s : AttachmentState) (l1 l2 : List UIEvent) :
    runAttachment s (l1 ++ l2) = runAttachment (runAttachment s l1) l2 :=
  List.foldl_append stepAttachment s l1 l2

/-! ### Claim theorems -/

/-- C1: the claim says a requested path whose normalized form resolves
outside the asset root is never served.  The code violates it: for the
URL path `"../secret"` under the asset root `/app/Resources/WebUI`,
`getChildFile` resolves to `/app/Resources/secret` — a location outside
the root — and the provider nonetheless serves that file's bytes
whenever a regular file exists there, because the only check performed
is `existsAsFile`. -/
theorem c1_traversal_escape :
    getChildFile "/app/Resources/WebUI" "../secret" = "/app/Resources/secret"
    ∧ strStartsWith "/app/Resources/secret" "/app/Resources/WebUI/" = false
    ∧ resourceProvider escapeFS "/app/Resources/WebUI" "../secret" =
        some { data := [42], mimeType := "application/octet-stream" } := by
  refine ⟨?_, by decide, ?_⟩
  · simp [getChildFile, resolveDots, dropSeps, parentPath, chopLastSegRev,
      addTrailingSep, isAbsolutePath]
  · decide

/-- C2: the provider strips exactly one leading `"/"` (a second slash
survives, and a slash-free path is untouched), an empty result maps to
`"index.html"`, and consequently `resolve("")` and `resolve("/")`
address the same root document. -/
theorem c2_path_normalization :
    normalizePath "" = "index.html"
    ∧ normalizePath "/" = "index.html"
    ∧ (∀ l : List Char, l ≠ [] → normalizePath ⟨'/' :: l⟩ = ⟨l⟩)
    ∧ (∀ s : String, strStartsWith s "/" = false → s ≠ "" → normalizePath s = s)
    ∧ (∀ (fs : FileSystem) (dir : String),
        resourceProvider fs dir "" = resourceProvider fs dir "/") := by
  refine ⟨by decide, by decide, ?_, ?_, ?_⟩
  · intro l hl
    have hne : (⟨l⟩ : String) ≠ "" := by
      intro hc
      apply hl
      simpa [String.ext_iff] using hc
    simp [normalizePath, strStartsWith, strDrop1, List.isPrefixOf, hne]
  · intro s h hne
    simp [normalizePath, h, hne]
  · intro fs dir
    have h : normalizePath "" = normalizePath "/" := by decide
    simp [resourceProvider, h]

theorem c2_path_normalization_witness :
    normalizePath ⟨'/' :: ['x', '.', 'j', 's']⟩ = ⟨['x', '.', 'j', 's']⟩
    ∧ normalizePath "x.js" = "x.js" := by
  constructor
  · exact c2_path_normalization.2.2.1 ['x', '.', 'j', 's'] (by decide)
  · exact c2_path_normalization.2.2.2.1 "x.js" (by decide) (by decide)

/-- C3: MIME classification follows the fixed suffix table (html, css,
js, json, png, jpg/jpeg, svg, woff, woff2), a path matching none of the
suffixes classifies as `application/octet-stream`, and every resource
the provider returns carries the MIME type classified from the
normalized path. -/
theorem c3_mime_classification (path : String) :
    (strEndsWith path ".html" = true → getMimeType path = "text/html")
    ∧ (strEndsWith path ".css" = true → getMimeType path = "text/css")
    ∧ (strEndsWith path ".js" = true → getMimeType path = "application/javascript")
    ∧ (strEndsWith path ".json" = true → getMimeType path = "application/json")
    ∧ (strEndsWith path ".png" = true → getMimeType path = "image/png")
    ∧ (strEndsWith path ".jpg" = true ∨ strEndsWith path ".jpeg" = true →
        getMimeType path = "image/jpeg")
    ∧ (strEndsWith path ".svg" = true → getMimeType path = "image/svg+xml")
    ∧ (strEndsWith path ".woff" = true → getMimeType path = "font/woff")
    ∧ (strEndsWith path ".woff2" = true → getMimeType path = "font/woff2")
    ∧ (strEndsWith path ".html" = false ∧ strEndsWith path ".css" = false
        ∧ strEndsWith path ".js" = false ∧ strEndsWith path ".json" = false
        ∧ strEndsWith path ".png" = false ∧ strEndsWith path ".jpg" = false
        ∧ strEndsWith path ".jpeg" = false ∧ strEndsWith path ".svg" = false
        ∧ strEndsWith path ".woff" = false ∧ strEndsWith path ".woff2" = false →
        getMimeType path = "application/octet-stream")
    ∧ (∀ (fs : FileSystem) (dir url : String) (r : Resource),
        resourceProvider fs dir url = some r →
        r.mimeType = getMimeType (normalizePath url)) := by
  refine ⟨?_, ?_, ?_, ?_, ?_, ?_, ?_, ?_, ?_, ?_, ?_⟩
  · intro h
    simp [getMimeType, h]
  · intro h
    have e1 := endsWith_excl ".css" ".html" (by decide) h
    simp [getMimeType, h, e1]
  · intro h
    have e1 := endsWith_excl ".js" ".html" (by decide) h
    have e2 := endsWith_excl ".js" ".css" (by decide) h
    simp [getMimeType, h, e1, e2]
  · intro h
    have e1 := endsWith_excl ".json" ".html" (by decide) h
    have e2 := endsWith_excl ".json" ".css" (by decide) h
    have e3 := endsWith_excl ".json" ".js" (by decide) h
    simp [getMimeType, h, e1, e2, e3]
  · intro h
    have e1 := endsWith_excl ".png" ".html" (by decide) h
    have e2 := endsWith_excl ".png" ".css" (by decide) h
    have e3 := endsWith_excl ".png" ".js" (by decide) h
    have e4 := endsWith_excl ".png" ".json" (by decide) h
    simp [getMimeType, h, e1, e2, e3, e4]
  · intro h
    rcases h with h | h
    · have e1 := endsWith_excl ".jpg" ".html" (by decide) h
      have e2 := endsWith_excl ".jpg" ".css" (by decide) h
      have e3 := endsWith_excl ".jpg" ".js" (by decide) h
      have e4 := endsWith_excl ".jpg" ".json" (by decide) h
      have e5 := endsWith_excl ".jpg" ".png" (by decide) h
      simp [getMimeType, h, e1, e2, e3, e4, e5]
    · have e1 := endsWith_excl ".jpeg" ".html" (by decide) h
      have e2 := endsWith_excl ".jpeg" ".css" (by decide) h
      have e3 := endsWith_excl ".jpeg" ".js" (by decide) h
      have e4 := endsWith_excl ".jpeg" ".json" (by decide) h
      have e5 := endsWith_excl ".jpeg" ".png" (by decide) h
      simp [getMimeType, h, e1, e2, e3, e4, e5]
  · intro h
    have e1 := endsWith_excl ".svg" ".html" (by decide) h
    have e2 := endsWith_excl ".svg" ".css" (by decide) h
    have e3 := endsWith_excl ".svg" ".js" (by decide) h
    have e4 := endsWith_excl ".svg" ".json" (by decide) h
    have e5 := endsWith_excl ".svg" ".png" (by decide) h
    have e6 := endsWith_excl ".svg" ".jpg" (by decide) h
    have e7 := endsWith_excl ".svg" ".jpeg" (by decide) h
    simp [getMimeType, h, e1, e2, e3, e4, e5, e6, e7]
  · intro h
    have e1 := endsWith_excl ".woff" ".html" (by decide) h
    have e2 := endsWith_excl ".woff" ".css" (by decide) h
    have e3 := endsWith_excl ".woff" ".js" (by decide) h
    have e4 := endsWith_excl ".woff" ".json" (by decide) h
    have e5 := endsWith_excl ".woff" ".png" (by decide) h
    have e6 := endsWith_excl ".woff" ".jpg" (by decide) h
    have e7 := endsWith_excl ".woff" ".jpeg" (by decide) h
    have e8 := endsWith_excl ".woff" ".svg" (by decide) h
    simp [getMimeType, h, e1, e2, e3, e4, e5, e6, e7, e8]
  · intro h
    have e1 := endsWith_excl ".woff2" ".html" (by decide) h
    have e2 := endsWith_excl ".woff2" ".css" (by decide) h
    have e3 := endsWith_excl ".woff2" ".js" (by decide) h
    have e4 := endsWith_excl ".woff2" ".json" (by decide) h
    have e5 := endsWith_excl ".woff2" ".png" (by decide) h
    have e6 := endsWith_excl ".woff2" ".jpg" (by decide) h
    have e7 := endsWith_excl ".woff2" ".jpeg" (by decide) h
    have e8 := endsWith_excl ".woff2" ".svg" (by decide) h
    have e9 := endsWith_excl ".woff2" ".woff" (by decide) h
    simp [getMimeType, h, e1, e2, e3, e4, e5, e6, e7, e8, e9]
  · rintro ⟨h1, h2, h3, h4, h5, h6, h7, h8, h9, h10⟩
    simp [getMimeType, h1, h2, h3, h4, h5, h6, h7, h8, h9, h10]
  · intro fs dir url r h
    by_cases hex : fs.existsAsFile (getChildFile dir (normalizePath url)) = true
    · simp [resourceProvider, hex] at h
      rw [← h]
    · simp [resourceProvider] at h
      exact absurd h.1 hex

theorem c3_mime_classification_witness :
    getMimeType "style.css" = "text/css"
    ∧ getMimeType "archive.tar" = "application/octet-stream" := by
  constructor
  · exact (c3_mime_classification "style.css").2.1 (by decide)
  · exact (c3_mime_classification "archive.tar").2.2.2.2.2.2.2.2.2.1 (by decide)

/-- C4: on a filesystem where `loadFileAsData` honours its contract and
the read of the resolved file succeeds, any resource the provider
returns carries exactly the complete contents of the resolved file. -/
theorem c4_full_file_served (fs : FileSystem) (dir url : String)
    (hf : ReadFaithful fs)
    (hok : (fs.readData (getChildFile dir (normalizePath url))).1 = true)
    (r : Resource) (h : resourceProvider fs dir url = some r) :
    r.data = fs.contents (getChildFile dir (normalizePath url)) := by
  by_cases hex : fs.existsAsFile (getChildFile dir (normalizePath url)) = true
  · simp [resourceProvider, hex] at h
    rw [← h]
    exact hf _ hok
  · simp [resourceProvider] at h
    exact absurd h.1 hex

theorem c4_full_file_served_witness :
    ReadFaithful okFS
    ∧ (okFS.readData (getChildFile "/r" (normalizePath "index.html"))).1 = true
    ∧ resourceProvider okFS "/r" "index.html" = some ⟨[5], "text/html"⟩
    ∧ ([5] : List Nat) = okFS.contents (getChildFile "/r" (normalizePath "index.html")) :=
  ⟨fun _ _ => rfl, rfl, by decide,
    c4_full_file_served okFS "/r" "index.html" (fun _ _ => rfl) rfl
      ⟨[5], "text/html"⟩ (by decide)⟩

/-- C5: when no regular file exists at the resolved location of the
normalized path, the provider returns `none` (NotFound, deferring to the
default UI-runtime handling); the provider is a total pure function of
the request, so the editor state is unchanged and no error is raised. -/
theorem c5_unknown_path_not_found (fs : FileSystem) (dir url : String)
    (h : fs.existsAsFile (getChildFile dir (normalizePath url)) = false) :
    resourceProvider fs dir url = none := by
  simp [resourceProvider, h]

theorem c5_unknown_path_not_found_witness :
    emptyFS.existsAsFile (getChildFile "/r" (normalizePath "missing.png")) = false
    ∧ resourceProvider emptyFS "/r" "missing.png" = none :=
  ⟨rfl, c5_unknown_path_not_found emptyFS "/r" "missing.png" rfl⟩

/-- C6: the two modes are mutually exclusive and fixed at construction;
in bundled mode the initial navigation target is the resource provider's
own root URL, in live mode it is the development server origin, where
the resolver is never consulted (the fetch outcome is independent of the
filesystem and asset root), while in bundled mode every request goes
through the resolver. -/
theorem c6_mode_selection :
    (∀ root : String, initialURL .bundled root = root)
    ∧ (∀ root : String, initialURL .live root = "http://localhost:5173")
    ∧ (∀ (fs fs2 : FileSystem) (dir dir2 url : String),
        interceptFetch .live fs dir url = interceptFetch .live fs2 dir2 url)
    ∧ (∀ (fs : FileSystem) (dir url : String),
        interceptFetch .bundled fs dir url = .fromResolver (resourceProvider fs dir url))
    ∧ (∀ m : Mode, m = .bundled ∨ m = .live)
    ∧ (∀ (devMode : Bool) (root : String),
        (setupWebViewTrace devMode root).getLast? =
          some (.navigate (initialURL (if devMode then .live else .bundled) root))) := by
  refine ⟨fun _ => rfl, fun _ => rfl, fun _ _ _ _ _ => rfl, fun _ _ _ => rfl, ?_, ?_⟩
  · intro m
    cases m
    · exact Or.inl rfl
    · exact Or.inr rfl
  · intro devMode root
    rfl

/-- C7: in the construction trace, the relay events before the
`WebBrowserComponent` construction are exactly the creation and
registration of the gain, mix and bypass relays (creations first), no
relay event occurs at or after that construction, and the component is
constructed exactly once — in both build modes. -/
theorem c7_relays_before_webview (devMode : Bool) (root : String) :
    ((editorConstructionTrace devMode root).takeWhile
        (fun e => !isCreateWebView e)).filter relayEvent =
      [ .createRelay "gain", .createRelay "mix", .createRelay "bypass",
        .registerRelayOptions "gain", .registerRelayOptions "mix",
        .registerRelayOptions "bypass" ]
    ∧ ((editorConstructionTrace devMode root).dropWhile
        (fun e => !isCreateWebView e)).filter relayEvent = []
    ∧ (editorConstructionTrace devMode root).filter isCreateWebView =
        [.createWebBrowserComponent] := by
  cases devMode <;> exact ⟨rfl, rfl, rfl⟩

/-- C8: a UI sequence [started, change…, finished] from the idle initial
state yields exactly one begin and one end gesture signal and returns to
idle; the same holds when a duplicate "started" arrives while dragging
(the duplicate is a no-op on any dragging state); and along every event
sequence at most one gesture is open. -/
theorem c8_gesture_framing (v0 : Int) (changes more : List Int) :
    ((runAttachment (initialAttachment v0)
        (.interactionStarted :: (changes.map .valueChanged ++ [.interactionFinished]))).beginCount = 1
      ∧ (runAttachment (initialAttachment v0)
        (.interactionStarted :: (changes.map .valueChanged ++ [.interactionFinished]))).endCount = 1
      ∧ (runAttachment (initialAttachment v0)
        (.interactionStarted :: (changes.map .valueChanged ++ [.interactionFinished]))).gesture = .idle)
    ∧ ((runAttachment (initialAttachment v0)
        (.interactionStarted :: (changes.map .valueChanged ++
          .interactionStarted :: (more.map .valueChanged ++ [.interactionFinished])))).beginCount = 1
      ∧ (runAttachment (initialAttachment v0)
        (.interactionStarted :: (changes.map .valueChanged ++
          .interactionStarted :: (more.map .valueChanged ++ [.interactionFinished])))).endCount = 1)
    ∧ (∀ s : AttachmentState, s.gesture = .dragging →
        stepAttachment s .interactionStarted = s)
    ∧ (∀ evs : List UIEvent,
        gesturesOpen (runAttachment (initialAttachment v0) evs) ≤ 1) := by
  have hs1 : stepAttachment (initialAttachment v0) .interactionStarted =
      { gesture := .dragging, paramValue := v0, beginCount := 1, endCount := 0 } := rfl
  have hrun := runAttachment_valueChanged changes
      { gesture := .dragging, paramValue := v0, beginCount := 1, endCount := 0 }
  refine ⟨?_, ?_, step_start_dragging, ?_⟩
  · have hfin := step_finish_dragging
      (runAttachment { gesture := .dragging, paramValue := v0, beginCount := 1, endCount := 0 }
        (changes.map .valueChanged)) hrun.1
    have key : runAttachment (initialAttachment v0)
        (.interactionStarted :: (changes.map .valueChanged ++ [.interactionFinished]))
        = stepAttachment
            (runAttachment { gesture := .dragging, paramValue := v0, beginCount := 1, endCount := 0 }
              (changes.map .valueChanged)) .interactionFinished := by
      rw [runAttachment_cons, hs1, runAttachment_append]
      rfl
    rw [key]
    refine ⟨hfin.1.trans hrun.2.1, ?_, hfin.2.2⟩
    rw [hfin.2.1, hrun.2.2]
  · have hdup := step_start_dragging
      (runAttachment { gesture := .dragging, paramValue := v0, beginCount := 1, endCount := 0 }
        (changes.map .valueChanged)) hrun.1
    have hrun2 := runAttachment_valueChanged more
      (runAttachment { gesture := .dragging, paramValue := v0, beginCount := 1, endCount := 0 }
        (changes.map .valueChanged))
    have hfin2 := step_finish_dragging
      (runAttachment
        (runAttachment { gesture := .dragging, paramValue := v0, beginCount := 1, endCount := 0 }
          (changes.map .valueChanged)) (more.map .valueChanged))
      (hrun2.1.trans hrun.1)
    have key2 : runAttachment (initialAttachment v0)
        (.interactionStarted :: (changes.map .valueChanged ++
          .interactionStarted :: (more.map .valueChanged ++ [.interactionFinished])))
        = stepAttachment
            (runAttachment
              (runAttachment { gesture := .dragging, paramValue := v0, beginCount := 1, endCount := 0 }
                (changes.map .valueChanged)) (more.map .valueChanged)) .interactionFinished := by
      rw [runAttachment_cons, hs1, runAttachment_append, runAttachment_cons, hdup,
        runAttachment_append]
      rfl
    rw [key2]
    constructor
    · rw [hfin2.1, hrun2.2.1, hrun.2.1]
    · rw [hfin2.2.1, hrun2.2.2, hrun.2.2]
  · intro evs
    have hinv := runAttachment_inv evs (initialAttachment v0) ⟨fun _ => rfl, fun h => nomatch h⟩
    obtain ⟨h1, h2⟩ := hinv
    unfold gesturesOpen
    cases hg : (runAttachment (initialAttachment v0) evs).gesture
    · have := h1 hg
      omega
    · have := h2 hg
      omega

theorem c8_gesture_framing_witness :
    (runAttachment (initialAttachment 0)
      (.interactionStarted :: (([3, 4] : List Int).map .valueChanged ++ [.interactionFinished]))).beginCount = 1
    ∧ stepAttachment ⟨.dragging, 5, 1, 0⟩ .interactionStarted = ⟨.dragging, 5, 1, 0⟩
    ∧ gesturesOpen (runAttachment (initialAttachment 0)
        [.interactionStarted, .interactionStarted, .valueChanged 2]) ≤ 1 :=
  ⟨(c8_gesture_framing 0 [3, 4] []).1.1,
    (c8_gesture_framing 0 [] []).2.2.1 ⟨.dragging, 5, 1, 0⟩ rfl,
    (c8_gesture_framing 0 [] []).2.2.2 [.interactionStarted, .interactionStarted, .valueChanged 2]⟩

/-- C9: with the visibility guard false, `sendVisualizerData` delivers
zero messages (a silent no-op, with no queue in the model); with the
guard true and the web view present, it delivers exactly one
`"visualizerData"` message; and the timer callback is exactly one such
call. -/
theorem c9_visibility_guard (st : EditorState) :
    (st.browserVisible = false → sendVisualizerData st = [])
    ∧ (st.webViewExists = true → st.browserVisible = true →
        sendVisualizerData st = ["visualizerData"])
    ∧ timerCallback st = sendVisualizerData st := by
  refine ⟨?_, ?_, rfl⟩
  · intro h
    cases hw : st.webViewExists <;>
      simp [sendVisualizerData, emitEventIfBrowserIsVisible, h, hw]
  · intro hw hv
    simp [sendVisualizerData, emitEventIfBrowserIsVisible, hw, hv]

theorem c9_visibility_guard_witness :
    sendVisualizerData ⟨true, false⟩ = []
    ∧ sendVisualizerData ⟨true, true⟩ = ["visualizerData"] :=
  ⟨(c9_visibility_guard ⟨true, false⟩).1 rfl,
    (c9_visibility_guard ⟨true, true⟩).2.1 rfl rfl⟩

/-- C10: whenever the existence check succeeds, the provider returns a
resource built from whatever bytes `loadFileAsData` left in the block
and the classified MIME type — with no reference to the read's success
flag, so a failed read still produces a resource and no error. -/
theorem c10_read_flag_ignored (fs : FileSystem) (dir url : String)
    (hex : fs.existsAsFile (getChildFile dir (normalizePath url)) = true) :
    resourceProvider fs dir url =
      some { data := (fs.readData (getChildFile dir (normalizePath url))).2
           , mimeType := getMimeType (normalizePath url) } := by
  simp [resourceProvider, hex]

theorem c10_read_flag_ignored_witness :
    (failReadFS.readData (getChildFile "/r" (normalizePath "x.js"))).1 = false
    ∧ resourceProvider failReadFS "/r" "x.js" =
        some { data := [], mimeType := "application/javascript" } := by
  refine ⟨rfl, ?_⟩
  have h := c10_read_flag_ignored failReadFS "/r" "x.js" rfl
  rw [h]
  decide

end BeatConnect
